import Mathlib

/-!
Shallow embedding of `src/mev_bot.py` (Telegram MEV notification bot).

Conventions of the embedding:
* pandas DataFrames are lists of row records.  A DataFrame cell that the
  program may leave absent (the derived `MEV value ($)` column, the joined
  validator columns for an unmatched proposer, where pandas stores NaN) is an
  `Option`.
* Python numbers are idealized as exact arithmetic: `int` is `Int`,
  `float` is `Rat` (the special float values inf/nan and rounding are not
  modelled; no claim depends on them).
* `requests` calls and exceptions are modelled with `Except Unit`:
  `Except.error ()` is a raised `RequestException`/`ValueError`; an
  exception that the source does not catch is recorded as a crash flag.
* The module-level dict `user_settings` together with the JSON file written
  by `save_settings` are modelled as the two stores of `BotState`
  (`mem` = the dict, `disk` = the file contents).
-/

/-! ### Python `str.strip().lower()` and numeric parsing

The dialog handler normalizes incoming text with `strip().lower()` and
parses it with `int(...)` / `float(...)`.  These are modelled character by
character (ASCII; the claims only exercise ASCII input). -/

/-- Whitespace stripped by Python `str.strip()` (ASCII subset). -/
def isPySpace (c : Char) : Bool :=
  c = ' ' ∨ c = '\t' ∨ c = '\n' ∨ c = '\r' ∨ c = '\x0b' ∨ c = '\x0c'

/-- Model of `s.strip().lower()` from `handle_text` (line 50 of the source). -/
def pyStripLower (s : String) : String :=
  let l := ((s.data.dropWhile isPySpace).reverse.dropWhile isPySpace).reverse
  String.mk (l.map Char.toLower)

/-- Numeric value of an ASCII digit. -/
def digitVal (c : Char) : Nat := c.toNat - 48

/-- Continue a digit run `(digit | _ digit)*` as accepted by Python numeric
literals (an underscore must sit between two digits).  Returns the
accumulated value, the number of digits consumed, and the unconsumed rest
(starting at the offending underscore when the run ends at an invalid one). -/
def digitRunAux : List Char → Nat → Nat → Nat × Nat × List Char
  | [], acc, n => (acc, n, [])
  | c :: cs, acc, n =>
    if c.isDigit then digitRunAux cs (acc * 10 + digitVal c) (n + 1)
    else if c = '_' then
      match cs with
      | c2 :: cs2 =>
        if c2.isDigit then digitRunAux cs2 (acc * 10 + digitVal c2) (n + 1)
        else (acc, n, c :: cs)
      | [] => (acc, n, [c])
    else (acc, n, c :: cs)

/-- Parse a nonempty digit run; `none` when the input does not start with a
digit. -/
def digitRun : List Char → Option (Nat × Nat × List Char)
  | c :: cs => if c.isDigit then some (digitRunAux cs (digitVal c) 1) else none
  | [] => none

/-- Split an optional leading sign; the Bool is true for a minus sign. -/
def splitSign : List Char → Bool × List Char
  | '+' :: r => (false, r)
  | '-' :: r => (true, r)
  | r => (false, r)

/-- Model of Python `int(s)` on already-stripped text: optional sign followed
by a digit run consuming the whole string. -/
def pyInt (s : String) : Option Int :=
  let p := splitSign s.data
  match digitRun p.2 with
  | some (v, _, []) => some (if p.1 then -(v : Int) else (v : Int))
  | _ => none

/-- Exponent part of a float literal: optional sign then digits. -/
def parseExp (r : List Char) : Option (Int × List Char) :=
  let p := splitSign r
  match digitRun p.2 with
  | some (v, _, rest) => some ((if p.1 then -(v : Int) else (v : Int)), rest)
  | none => none

/-- Syntactic pieces of a Python float literal: sign, integer part,
fraction digits and their count, exponent. -/
structure FloatParts where
  neg : Bool
  ip : Nat
  fp : Nat
  fd : Nat
  ex : Int
deriving DecidableEq, Repr

/-- Parse the shape of a Python float literal
`[sign] (digits [. digits] | . digits) [(e|E) [sign] digits]`
(underscores between digits allowed; `inf`/`nan` spellings not modelled). -/
def pyFloatParts (s : String) : Option FloatParts :=
  let p := splitSign s.data
  let ipart : Nat × Nat × List Char :=
    match digitRun p.2 with
    | some t => t
    | none => (0, 0, p.2)
  let fpart : Nat × Nat × List Char :=
    match ipart.2.2 with
    | '.' :: r =>
      match digitRun r with
      | some t => t
      | none => (0, 0, r)
    | _ => (0, 0, ipart.2.2)
  if ipart.2.1 + fpart.2.1 = 0 then none
  else
    match (match fpart.2.2 with
           | 'e' :: r => parseExp r
           | 'E' :: r => parseExp r
           | _ => some (0, fpart.2.2)) with
    | some (e, []) => some ⟨p.1, ipart.1, fpart.1, fpart.2.1, e⟩
    | _ => none

/-- Ten to a natural power, as a rational. -/
def pow10 (n : Nat) : Rat := (10 : Rat) ^ n

/-- Numeric value of a parsed float literal. -/
def ratOfParts (q : FloatParts) : Rat :=
  let base : Rat := (if q.neg then -1 else 1) * ((q.ip : Rat) + (q.fp : Rat) / pow10 q.fd)
  if 0 ≤ q.ex then base * pow10 q.ex.toNat else base / pow10 (-q.ex).toNat

/-- Model of Python `float(s)` on already-stripped text (exact arithmetic). -/
def pyFloat (s : String) : Option Rat :=
  (pyFloatParts s).map ratOfParts

/-! ### Data model of the correlation pipeline

`get_mev_data` yields a DataFrame with columns `height`, `proposer`,
`value` (and, once `process_data` has run, the derived `MEV value ($)`
column); `get_validator_data` yields columns `pubkey`, `moniker`. -/

/-- Row of the MEV DataFrame.  `musd` is the derived `MEV value ($)`
column: `none` while the column is absent (a frame fresh from the API),
`some` once `process_data` has written it.  `value` is the raw
micro-denominated capture value (`astype(float)` is the identity on the
already-numeric model). -/
structure MevRow where
  height : Int
  proposer : String
  value : Rat
  musd : Option Rat
deriving DecidableEq, Repr

/-- Row of the validator DataFrame. -/
structure Validator where
  pubkey : String
  moniker : String
deriving DecidableEq, Repr

/-- Row of the merged DataFrame: the MEV columns plus the validator columns,
`none` when the left join found no matching `pubkey` (pandas fills NaN). -/
structure Merged where
  row : MevRow
  matched : Option Validator
deriving DecidableEq, Repr

/-- Write the derived column: `mev_df['MEV value ($)'] = mev_df['value'] / 10**6`
(line 105). -/
def setUsd (r : MevRow) : MevRow :=
  { r with musd := some (r.value / 1000000) }

/-- Forget the derived column (used to compare output rows with the pristine
input rows). -/
def dropUsd (r : MevRow) : MevRow :=
  { r with musd := none }

/-- Validators whose `pubkey` equals the given key, in directory order. -/
def matchesFor (vals : List Validator) (k : String) : List Validator :=
  vals.filter (fun v => v.pubkey == k)

/-- Model of `pd.merge(mev_df, validator_df, left_on='proposer',
right_on='pubkey', how='left')` (line 106): left row order is preserved; a
left row with no match survives once with NaN validator columns; a left row
with several matches is repeated once per match in right order. -/
def mergeLeft : List MevRow → List Validator → List Merged
  | [], _ => []
  | r :: rest, vals =>
    (match matchesFor vals r.proposer with
     | [] => [⟨r, none⟩]
     | v :: vs => (v :: vs).map (fun w => ⟨r, some w⟩)) ++ mergeLeft rest vals

/-- Row filter `merged_df['MEV value ($)'] > threshold` (line 107); strict,
and an absent value never passes (pandas NaN comparisons are false). -/
def aboveThreshold (t : Rat) (m : Merged) : Bool :=
  match m.row.musd with
  | some x => decide (t < x)
  | none => false

/-- Model of `process_data(mev_df, validator_df, threshold)` (lines 102-107).
The first component is the caller-visible state of `mev_df` AFTER the call:
the function mutates its argument in place by writing the derived column
(and coercing dtypes) before merging.  The second component is the returned
filtered merge. -/
def process_data (mev : List MevRow) (vals : List Validator) (t : Rat) :
    List MevRow × List Merged :=
  let mev2 := mev.map setUsd
  (mev2, (mergeLeft mev2 vals).filter (aboveThreshold t))

/-! ### Subscriber settings, persistence, and the configuration dialog

`user_settings` maps a chat id to `{'notifications': bool, 'interval': int,
'threshold': float}` (line 44); `save_settings` (lines 31-33) rewrites the
JSON file with the whole dict. -/

/-- One subscriber's entry of `user_settings`. -/
structure Settings where
  notifications : Bool
  interval : Int
  threshold : Rat
deriving DecidableEq, Repr

/-- Defaults installed by `configure` (line 44). -/
def defaultSettings : Settings := ⟨false, 1, 300⟩

/-- The `user_settings` dict: insertion-ordered key/value pairs. -/
abbrev Store := List (String × Settings)

/-- Dict lookup `user_settings[user_id]` / `user_id in user_settings`. -/
def storeGet : Store → String → Option Settings
  | [], _ => none
  | (k, v) :: rest, u => if k = u then some v else storeGet rest u

/-- Dict assignment `user_settings[user_id] = s`: update in place, append
when absent (Python dicts keep insertion order). -/
def storeSet : Store → String → Settings → Store
  | [], u, s => [(u, s)]
  | (k, v) :: rest, u, s =>
    if k = u then (k, s) :: rest else (k, v) :: storeSet rest u s

/-- In-memory dict (`mem`) and the persisted JSON file (`disk`).
`save_settings()` copies `mem` to `disk`. -/
structure BotState where
  mem : Store
  disk : Store
deriving DecidableEq, Repr

/-- The distinct outgoing messages of the dialog handlers, by branch. -/
inductive Reply where
  | needConfigure
  | askEnable
  | askInterval
  | disabledMsg
  | askThreshold
  | intervalError
  | setDone
  | thresholdError
  | stopped
  | silent
deriving DecidableEq, Repr

/-- Model of `configure` (lines 41-45): create the record with defaults only
when the user is absent, then prompt for the enable choice.  No
persistence. -/
def configure (b : BotState) (userId : String) : BotState × Reply :=
  match storeGet b.mem userId with
  | none => ({ b with mem := storeSet b.mem userId defaultSettings }, .askEnable)
  | some _ => (b, .askEnable)

/-- Model of `handle_text` (lines 48-76).  The branch order is the source's
`if`/`elif` chain: the y/yes and n/no tokens are tested first at every
dialog stage; the interval branch fires when `notifications and
interval == 1`; the threshold branch when `notifications and
threshold == 300`; the only call to `save_settings()` is in the successful
threshold branch. -/
def handle_text (b : BotState) (userId rawMsg : String) : BotState × Reply :=
  let message := pyStripLower rawMsg
  match storeGet b.mem userId with
  | none => (b, .needConfigure)
  | some s =>
    if message = "y" ∨ message = "yes" then
      ({ b with mem := storeSet b.mem userId { s with notifications := true } }, .askInterval)
    else if message = "n" ∨ message = "no" then
      ({ b with mem := storeSet b.mem userId { s with notifications := false } }, .disabledMsg)
    else if s.notifications = true ∧ s.interval = 1 then
      match pyInt message with
      | some k => ({ b with mem := storeSet b.mem userId { s with interval := k } }, .askThreshold)
      | none => (b, .intervalError)
    else if s.notifications = true ∧ s.threshold = 300 then
      match pyFloat message with
      | some x =>
        let mem2 := storeSet b.mem userId { s with threshold := x }
        ({ mem := mem2, disk := mem2 }, .setDone)
      | none => (b, .thresholdError)
    else (b, .silent)

/-- Model of `stop` (lines 79-84): when present, disable notifications and
persist; silent no-op when the user is unknown. -/
def stop (b : BotState) (userId : String) : BotState × Reply :=
  match storeGet b.mem userId with
  | none => (b, .silent)
  | some s =>
    let mem2 := storeSet b.mem userId { s with notifications := false }
    ({ mem := mem2, disk := mem2 }, .stopped)

/-- Dialog stages as the source detects them through sentinel values, in the
dispatch order of `handle_text`'s `elif` chain for non-token input. -/
inductive Stage where
  | awaitingInterval
  | awaitingThreshold
  | inactiveOrDone
deriving DecidableEq, Repr

/-- Stage a non-token message is interpreted under (the `elif` chain of
lines 62-76): interval while `notifications and interval == 1`, threshold
while `notifications and threshold == 300`, otherwise the message is
ignored. -/
def stageOf (s : Settings) : Stage :=
  if s.notifications = true ∧ s.interval = 1 then .awaitingInterval
  else if s.notifications = true ∧ s.threshold = 300 then .awaitingThreshold
  else .inactiveOrDone

/-! ### The scheduler loop `check_mev_values` (lines 114-143)

Fetches are oracles (`Except.error ()` = exception raised by the call).
Only the block-range fetch is inside a `try`/`except` (lines 119-125); an
exception from `get_mev_data` or `get_validator_data` propagates out of the
coroutine and kills the loop.  The final `asyncio.sleep` (line 143) is
OUTSIDE the `for` and uses whatever `settings` the loop variable last held,
i.e. the last subscriber of the dict. -/

/-- Outcome of the loop body for one subscriber: at most one delivered
payload (the rows enumerated in the message, addressed to that subscriber),
and whether an uncaught exception escaped. -/
structure CycleResult where
  sent : Option (List Merged)
  crashed : Bool
deriving DecidableEq, Repr

/-- Body of `for user_id, settings in user_settings.items():` for a single
subscriber (lines 117-141).  `br` is the block-range fetch (caught:
`continue` on failure); `mf from to` the MEV fetch for the window
`[final - 50000, final]`; `vf` the validator fetch (both uncaught). -/
def check_mev_values_body (s : Settings) (br : Except Unit Int)
    (mf : Int → Int → Except Unit (List MevRow))
    (vf : Except Unit (List Validator)) : CycleResult :=
  if s.notifications = true then
    match br with
    | .error _ => ⟨none, false⟩
    | .ok finalH =>
      match mf (finalH - 50000) finalH with
      | .error _ => ⟨none, true⟩
      | .ok mev =>
        match vf with
        | .error _ => ⟨none, true⟩
        | .ok vals =>
          if mev.isEmpty then ⟨none, false⟩
          else
            let filtered := (process_data mev vals s.threshold).2
            if filtered.isEmpty then ⟨none, false⟩ else ⟨some filtered, false⟩
  else ⟨none, false⟩

/-- The whole `for` loop of one `while True` iteration: subscribers in dict
order, each with its own fetches; an uncaught exception aborts the loop,
skipping every later subscriber.  Returns the deliveries (subscriber,
payload) in order and the crash flag. -/
def check_mev_values_users (ob : String → Except Unit Int)
    (om : String → Int → Int → Except Unit (List MevRow))
    (ov : String → Except Unit (List Validator)) :
    List (String × Settings) → List (String × List Merged) × Bool
  | [] => ([], false)
  | (u, s) :: rest =>
    let c := check_mev_values_body s (ob u) (om u) (ov u)
    let here := match c.sent with
      | some p => [(u, p)]
      | none => []
    if c.crashed then (here, true)
    else
      let r := check_mev_values_users ob om ov rest
      (here ++ r.1, r.2)

/-- One `while True` iteration of `check_mev_values`. -/
structure TickResult where
  sent : List (String × List Merged)
  crashed : Bool
  sleepSeconds : Option Int
deriving Repr

/-- One iteration of the `while True` loop (lines 115-143): run the `for`
loop, then `await asyncio.sleep(3600 * settings['interval'])` with the
leaked loop variable `settings` — the interval of the LAST subscriber in
the dict, whether or not that subscriber has notifications enabled.  The
sleep is `none` when the loop crashed before reaching it (or no subscriber
exists, where the source raises `NameError` on a fresh loop variable). -/
def check_mev_values_tick (users : List (String × Settings))
    (ob : String → Except Unit Int)
    (om : String → Int → Int → Except Unit (List MevRow))
    (ov : String → Except Unit (List Validator)) : TickResult :=
  let r := check_mev_values_users ob om ov users
  { sent := r.1
    crashed := r.2
    sleepSeconds :=
      if r.2 then none
      else
        match users.getLast? with
        | some (_, s) => some (3600 * s.interval)
        | none => none }

/-! ### Lemmas about the correlator -/

/-- In a directory with pairwise-distinct pubkeys, a key matches no
validator or exactly one. -/
lemma matchesFor_nil_or_singleton (vals : List Validator) (k : String)
    (hnd : (vals.map Validator.pubkey).Nodup) :
    matchesFor vals k = [] ∨ ∃ v, matchesFor vals k = [v] := by
  induction vals with
  | nil => exact Or.inl rfl
  | cons v vs ih =>
    rw [List.map_cons, List.nodup_cons] at hnd
    obtain ⟨hv, hvs⟩ := hnd
    by_cases hk : v.pubkey = k
    · right
      refine ⟨v, ?_⟩
      have hrest : matchesFor vs k = [] := by
        apply List.filter_eq_nil_iff.mpr
        intro w hw
        simp only [beq_iff_eq]
        intro hwk
        have hmem : w.pubkey ∈ vs.map Validator.pubkey := List.mem_map_of_mem _ hw
        rw [hwk, ← hk] at hmem
        exact hv hmem
      simp [matchesFor, List.filter_cons, hk] at hrest ⊢
      exact hrest
    · have : matchesFor (v :: vs) k = matchesFor vs k := by
        simp [matchesFor, List.filter_cons, hk]
      rw [this]
      exact ih hvs

/-- Dropping the derived column of a freshly computed row recovers the
pristine input row. -/
lemma dropUsd_setUsd {r : MevRow} (h : r.musd = none) : dropUsd (setUsd r) = r := by
  cases r
  simp only [MevRow.mk.injEq] at h ⊢
  simp_all [dropUsd, setUsd]

/-- C1: with pairwise-distinct directory pubkeys and a pristine input frame,
`process_data` returns exactly the input records whose `value / 10^6`
strictly exceeds the threshold, in input order (plain filter, no
re-sorting). -/
theorem correlate_filters_in_order (mev : List MevRow) (vals : List Validator) (t : Rat)
    (hnd : (vals.map Validator.pubkey).Nodup)
    (hfresh : ∀ r ∈ mev, r.musd = none) :
    ((process_data mev vals t).2.map (fun m => dropUsd m.row))
      = mev.filter (fun r => decide (t < r.value / 1000000)) := by
  induction mev with
  | nil => rfl
  | cons r rest ih =>
    have hr : r.musd = none := hfresh r (by simp)
    have hrest : ∀ x ∈ rest, x.musd = none := fun x hx => hfresh x (by simp [hx])
    have ih' := ih hrest
    simp only [process_data, List.map_cons] at ih' ⊢
    rw [mergeLeft]
    have hprop : (setUsd r).proposer = r.proposer := rfl
    have habove : ∀ o : Option Validator,
        aboveThreshold t ⟨setUsd r, o⟩ = decide (t < r.value / 1000000) := by
      intro o
      simp [aboveThreshold, setUsd]
    rcases matchesFor_nil_or_singleton vals r.proposer hnd with hm | ⟨v, hm⟩
    · rw [hprop, hm]
      by_cases hlt : t < r.value / 1000000
      · simp [List.filter_cons, List.filter_append, habove, hlt, ih',
              dropUsd_setUsd hr]
      · simp [List.filter_cons, List.filter_append, habove, hlt, ih']
    · rw [hprop, hm]
      by_cases hlt : t < r.value / 1000000
      · simp [List.filter_cons, List.filter_append, habove, hlt, ih',
              dropUsd_setUsd hr]
      · simp [List.filter_cons, List.filter_append, habove, hlt, ih']

def w1Row : MevRow := ⟨7, "p", 700000000, none⟩

def w1Val : Validator := ⟨"q", "mon"⟩

/-- Witness for C1 at a concrete input. -/
theorem correlate_filters_in_order_witness :
    (([w1Val].map Validator.pubkey).Nodup ∧ ∀ r ∈ [w1Row], r.musd = none)
    ∧ ((process_data [w1Row] [w1Val] 300).2.map (fun m => dropUsd m.row))
      = [w1Row].filter (fun r => decide ((300 : Rat) < r.value / 1000000)) :=
  ⟨⟨by decide, by decide⟩,
    correlate_filters_in_order [w1Row] [w1Val] 300 (by decide) (by decide)⟩

/-- Writing the derived column is injective on pristine rows. -/
lemma setUsd_inj_fresh {a b : MevRow} (ha : a.musd = none) (hb : b.musd = none)
    (h : setUsd a = setUsd b) : a = b := by
  cases a
  cases b
  simp_all [setUsd]

/-- A pristine record with no directory match occurs in the left join, with
absent validator columns, exactly as often as in the input. -/
lemma count_mergeLeft_nomatch (mev : List MevRow) (vals : List Validator) (r : MevRow)
    (hr : r.musd = none) (hfresh : ∀ x ∈ mev, x.musd = none)
    (hnm : matchesFor vals r.proposer = []) :
    (mergeLeft (mev.map setUsd) vals).count ⟨setUsd r, none⟩ = mev.count r := by
  induction mev with
  | nil => rfl
  | cons x xs ih =>
    have hx : x.musd = none := hfresh x (by simp)
    have hxs : ∀ y ∈ xs, y.musd = none := fun y hy => hfresh y (by simp [hy])
    rw [List.map_cons, mergeLeft, List.count_append, ih hxs]
    by_cases hxr : x = r
    · subst hxr
      rw [show (setUsd x).proposer = x.proposer from rfl, hnm]
      simp [List.count_cons]
      omega
    · have hcontrib : (match matchesFor vals (setUsd x).proposer with
          | [] => [(⟨setUsd x, none⟩ : Merged)]
          | v :: vs => (v :: vs).map (fun w => (⟨setUsd x, some w⟩ : Merged))).count
            (⟨setUsd r, none⟩ : Merged) = 0 := by
        cases hm : matchesFor vals (setUsd x).proposer with
        | nil =>
          have hne : (⟨setUsd x, none⟩ : Merged) ≠ ⟨setUsd r, none⟩ := by
            intro heq
            apply hxr
            apply setUsd_inj_fresh hx hr
            simpa [Merged.mk.injEq] using heq
          simp [List.count_singleton, beq_iff_eq, hne]
        | cons v vs =>
          rw [List.count_eq_zero]
          simp [List.mem_map, Merged.mk.injEq]
      rw [hcontrib]
      simp [List.count_cons, hxr]

/-- C5: an input record whose proposer has no directory entry, occurring once
in a pristine input frame and whose dollar value strictly exceeds the
threshold, appears exactly once in the correlator output, with the
validator columns absent (the unknown-moniker marker). -/
theorem left_join_unmatched_retained (mev : List MevRow) (vals : List Validator)
    (t : Rat) (r : MevRow)
    (hfresh : ∀ x ∈ mev, x.musd = none)
    (hone : mev.count r = 1)
    (hnm : matchesFor vals r.proposer = [])
    (ht : t < r.value / 1000000) :
    (process_data mev vals t).2.count ⟨setUsd r, none⟩ = 1 := by
  have hmem : r ∈ mev := List.count_pos_iff.mp (by rw [hone]; exact Nat.one_pos)
  have hr : r.musd = none := hfresh r hmem
  have habove : aboveThreshold t ⟨setUsd r, none⟩ = true := by
    simp [aboveThreshold, setUsd, ht]
  simp only [process_data]
  rw [List.count_filter habove, count_mergeLeft_nomatch mev vals r hr hfresh hnm, hone]

def w5Row : MevRow := ⟨5, "pp", 400000000, none⟩

def w5Val : Validator := ⟨"zz", "m2"⟩

/-- Witness for C5 at a concrete input. -/
theorem left_join_unmatched_retained_witness :
    ((∀ x ∈ [w5Row], x.musd = none) ∧ [w5Row].count w5Row = 1
      ∧ matchesFor [w5Val] w5Row.proposer = [] ∧ (300 : Rat) < w5Row.value / 1000000)
    ∧ (process_data [w5Row] [w5Val] 300).2.count ⟨setUsd w5Row, none⟩ = 1 :=
  ⟨⟨by decide, by decide, by decide, by norm_num [w5Row]⟩,
    left_join_unmatched_retained [w5Row] [w5Val] 300 w5Row
      (by decide) (by decide) (by decide) (by norm_num [w5Row])⟩

/-! ### C8: the correlator mutates its MEV frame argument -/

def c8Row : MevRow := ⟨3, "pa", 1000000, none⟩

/-- Counterexample to C8 as stated: `process_data` does NOT leave its MEV
frame unchanged — after the call the caller's frame carries the derived
`MEV value ($)` column (line 105 assigns into the argument). -/
theorem process_data_mutates_mev_frame :
    (process_data [c8Row] [] 300).1 ≠ [c8Row] := by
  intro h
  have h2 : setUsd c8Row = c8Row := by
    simpa [process_data] using h
  have h3 : (setUsd c8Row).musd = c8Row.musd := congrArg MevRow.musd h2
  simp [setUsd, c8Row] at h3

/-- C8 amended: `process_data` is a deterministic function of its arguments
with no other state (it never touches the validator frame), and re-running
it on its own mutated MEV frame reproduces both the mutated frame and the
filtered output exactly. -/
theorem process_data_idempotent_on_mutated_frame (mev : List MevRow)
    (vals : List Validator) (t : Rat) :
    process_data (process_data mev vals t).1 vals t = process_data mev vals t := by
  have hcomp : setUsd ∘ setUsd = setUsd := funext fun r => rfl
  simp only [process_data, List.map_map, hcomp]

/-! ### C2 and C3: failure isolation and scheduling cadence -/

def enabledSettings : Settings := ⟨true, 1, 300⟩

def obOK : String → Except Unit Int := fun _ => Except.ok 100000

def demoMev : MevRow := ⟨1000, "pk", 500000000, none⟩

def demoVal : Validator := ⟨"pk", "val"⟩

def omDemo : String → Int → Int → Except Unit (List MevRow) :=
  fun _ _ _ => Except.ok [demoMev]

def ovDemo : String → Except Unit (List Validator) := fun _ => Except.ok [demoVal]

def c2Users : List (String × Settings) := [("A", enabledSettings), ("B", enabledSettings)]

def ovFailA : String → Except Unit (List Validator) :=
  fun u => if u = "A" then Except.error () else Except.ok [demoVal]

/-- Counterexample to C2 as stated: a validator-directory fetch failure for
one subscriber is NOT isolated — the exception escapes the loop (crash), no
later subscriber is processed, and the sleep (hence any next cycle) is
never reached. -/
theorem validator_fetch_failure_crashes_loop :
    (check_mev_values_tick c2Users obOK omDemo ovFailA).crashed = true
    ∧ (check_mev_values_tick c2Users obOK omDemo ovFailA).sent = []
    ∧ (check_mev_values_tick c2Users obOK omDemo ovFailA).sleepSeconds = none := by
  decide

/-- C2 amended: only the block-range fetch is guarded — its failure skips the
subscriber for the cycle without crashing, and the loop continues with the
remaining subscribers unchanged; a failing MEV-records or
validator-directory fetch for an enabled subscriber instead raises out of
the loop (crash). -/
theorem fetch_failure_isolation_amended (s : Settings) (h : Int)
    (mf : Int → Int → Except Unit (List MevRow)) (vf : Except Unit (List Validator))
    (mev : List MevRow) (hn : s.notifications = true) :
    check_mev_values_body s (Except.error ()) mf vf = ⟨none, false⟩
    ∧ (check_mev_values_body s (Except.ok h) (fun _ _ => Except.error ()) vf).crashed = true
    ∧ (check_mev_values_body s (Except.ok h) (fun _ _ => Except.ok mev) (Except.error ())).crashed = true
    ∧ ∀ (users : List (String × Settings)) (ob : String → Except Unit Int)
        (om : String → Int → Int → Except Unit (List MevRow))
        (ov : String → Except Unit (List Validator)) (u : String),
        ob u = Except.error () →
        (check_mev_values_users ob om ov ((u, s) :: users)).1
            = (check_mev_values_users ob om ov users).1
          ∧ (check_mev_values_users ob om ov ((u, s) :: users)).2
            = (check_mev_values_users ob om ov users).2 := by
  refine ⟨?_, ?_, ?_, ?_⟩
  · simp [check_mev_values_body, hn]
  · simp [check_mev_values_body, hn]
  · simp [check_mev_values_body, hn]
  · intro users ob om ov u hob
    constructor
    · simp [check_mev_values_users, check_mev_values_body, hn, hob]
    · simp [check_mev_values_users, check_mev_values_body, hn, hob]

/-- Witness for C2's amended theorem at a concrete input. -/
theorem fetch_failure_isolation_amended_witness :
    enabledSettings.notifications = true
    ∧ check_mev_values_body enabledSettings (Except.error ())
        (fun _ _ => Except.ok []) (Except.ok []) = ⟨none, false⟩ :=
  ⟨by decide,
    (fetch_failure_isolation_amended enabledSettings 100000
      (fun _ _ => Except.ok []) (Except.ok []) [] (by decide)).1⟩

def c3Users : List (String × Settings) := [("A", ⟨true, 4, 300⟩), ("B", ⟨true, 1, 300⟩)]

/-- Evidence for C3 (a code bug the spec's design notes already flag): with
subscriber A configured for every 4 hours and B (last in the dict) for
every hour, one loop iteration notifies BOTH subscribers and then sleeps
`3600 * 1` seconds — the leaked loop variable's interval — so A is polled
and can be notified again after one hour, not once per its own 4-hour
window. -/
theorem global_sleep_uses_last_interval :
    (check_mev_values_tick c3Users obOK omDemo ovDemo).sleepSeconds = some 3600
    ∧ (check_mev_values_tick c3Users obOK omDemo ovDemo).sent.map Prod.fst = ["A", "B"] := by
  have haT : ∀ o : Option Validator,
      aboveThreshold 300 ⟨setUsd demoMev, o⟩ = true := by
    intro o
    simp only [aboveThreshold, setUsd, demoMev]
    norm_num
  have hmerge : mergeLeft [setUsd demoMev] [demoVal] = [⟨setUsd demoMev, some demoVal⟩] := by
    have hm2 : matchesFor [demoVal] (setUsd demoMev).proposer = [demoVal] := by decide
    simp [mergeLeft, hm2]
  have hfilt : (process_data [demoMev] [demoVal] (300 : Rat)).2
      = [⟨setUsd demoMev, some demoVal⟩] := by
    simp [process_data, hmerge, List.filter_cons, haT]
  have hbody : ∀ (u : String) (s : Settings), s.notifications = true →
      s.threshold = (300 : Rat) →
      check_mev_values_body s (obOK u) (omDemo u) (ovDemo u)
        = ⟨some [⟨setUsd demoMev, some demoVal⟩], false⟩ := by
    intro u s hn ht
    simp [check_mev_values_body, obOK, omDemo, ovDemo, hn, ht, hfilt]
  constructor
  · simp [check_mev_values_tick, check_mev_values_users, c3Users,
          hbody "A" ⟨true, 4, 300⟩ rfl rfl, hbody "B" ⟨true, 1, 300⟩ rfl rfl]
  · simp [check_mev_values_tick, check_mev_values_users, c3Users,
          hbody "A" ⟨true, 4, 300⟩ rfl rfl, hbody "B" ⟨true, 1, 300⟩ rfl rfl]

/-- A loop body whose MEV fetch returns the empty frame delivers nothing
(the `if mev_df.empty: continue` of lines 131-132), whatever the other
fetches do. -/
lemma body_sent_none_of_empty (s : Settings) (br : Except Unit Int)
    (mf : Int → Int → Except Unit (List MevRow)) (vf : Except Unit (List Validator))
    (hemp : ∀ a b : Int, mf a b = Except.ok []) :
    (check_mev_values_body s br mf vf).sent = none := by
  unfold check_mev_values_body
  by_cases hn : s.notifications = true
  · simp only [hn, if_true]
    cases br with
    | error e => rfl
    | ok h =>
      cases vf with
      | error e => simp [hemp]
      | ok vals => simp [hemp]
  · simp [hn]

/-- C9: in any cycle where the MEV fetch for subscriber `u` returns the
empty sequence for its computed window, the loop delivers nothing addressed
to `u` in that cycle. -/
theorem empty_mev_window_sends_nothing (users : List (String × Settings))
    (ob : String → Except Unit Int)
    (om : String → Int → Int → Except Unit (List MevRow))
    (ov : String → Except Unit (List Validator)) (u : String)
    (hemp : ∀ a b : Int, om u a b = Except.ok []) :
    (check_mev_values_users ob om ov users).1.filter (fun p => p.1 == u) = [] := by
  induction users with
  | nil => rfl
  | cons ws rest ih =>
    obtain ⟨w, s⟩ := ws
    by_cases hw : w = u
    · subst hw
      have hsent := body_sent_none_of_empty s (ob w) (om w) (ov w) hemp
      cases hcr : (check_mev_values_body s (ob w) (om w) (ov w)).crashed with
      | false => simp [check_mev_values_users, hsent, hcr, ih]
      | true => simp [check_mev_values_users, hsent, hcr]
    · have hne : (w == u) = false := by
        simp [hw]
      cases hsent : (check_mev_values_body s (ob w) (om w) (ov w)).sent with
      | none =>
        cases hcr : (check_mev_values_body s (ob w) (om w) (ov w)).crashed with
        | false => simp [check_mev_values_users, hsent, hcr, ih]
        | true => simp [check_mev_values_users, hsent, hcr]
      | some p =>
        cases hcr : (check_mev_values_body s (ob w) (om w) (ov w)).crashed with
        | false => simp [check_mev_values_users, hsent, hcr, List.filter_cons, hne, ih]
        | true => simp [check_mev_values_users, hsent, hcr, List.filter_cons, hne]

def omEmpty : String → Int → Int → Except Unit (List MevRow) := fun _ _ _ => Except.ok []

/-- Witness for C9 at a concrete input. -/
theorem empty_mev_window_sends_nothing_witness :
    (∀ a b : Int, omEmpty "A" a b = Except.ok [])
    ∧ (check_mev_values_users obOK omEmpty ovDemo c2Users).1.filter
        (fun p => p.1 == "A") = [] :=
  ⟨fun _ _ => rfl,
    empty_mev_window_sends_nothing c2Users obOK omEmpty ovDemo "A" (fun _ _ => rfl)⟩

/-! ### Dialog-handler lemmas -/

/-- Every `handle_text` step either leaves the persisted store untouched, or
is the dialog-completion step (reply `setDone`, the sole `save_settings()`
call of lines 48-76) after which the persisted store equals the in-memory
store. -/
lemma handle_text_disk (b : BotState) (u msg : String) :
    ((handle_text b u msg).1.disk = b.disk ∧ (handle_text b u msg).2 ≠ Reply.setDone)
    ∨ ((handle_text b u msg).1.disk = (handle_text b u msg).1.mem
        ∧ (handle_text b u msg).2 = Reply.setDone) := by
  cases hget : storeGet b.mem u with
  | none => left; simp [handle_text, hget]
  | some s =>
    by_cases h1 : pyStripLower msg = "y" ∨ pyStripLower msg = "yes"
    · left
      simp [handle_text, hget, h1]
    · by_cases h2 : pyStripLower msg = "n" ∨ pyStripLower msg = "no"
      · left
        simp [handle_text, hget, h1, h2]
      · by_cases h3 : s.notifications = true ∧ s.interval = 1
        · cases hpi : pyInt (pyStripLower msg) with
          | some k => left; simp [handle_text, hget, h1, h2, h3, hpi]
          | none => left; simp [handle_text, hget, h1, h2, h3, hpi]
        · by_cases h4 : s.notifications = true ∧ s.threshold = 300
          · have hi : ¬(s.interval = 1) := fun hh => h3 ⟨h4.1, hh⟩
            cases hpf : pyFloat (pyStripLower msg) with
            | some x => right; simp [handle_text, hget, h1, h2, h3, hi, h4, hpf]
            | none => left; simp [handle_text, hget, h1, h2, h3, hi, h4, hpf]
          · left
            simp [handle_text, hget, h1, h2, h3, h4]

/-- C4 amended: the persisted store is written only by the
threshold-completion step of the dialog (reply `setDone`) and by `/stop` on
a known subscriber — after those the persisted store equals the in-memory
store; every other dialog step (enable/disable choice, interval setting,
re-prompts) leaves the persisted store exactly as it was. -/
theorem persistence_only_on_completion_and_stop (b : BotState) (u msg : String) :
    ((handle_text b u msg).2 = Reply.setDone →
        (handle_text b u msg).1.disk = (handle_text b u msg).1.mem)
    ∧ ((handle_text b u msg).2 ≠ Reply.setDone →
        (handle_text b u msg).1.disk = b.disk)
    ∧ ((storeGet b.mem u).isSome = true → (stop b u).1.disk = (stop b u).1.mem)
    ∧ (storeGet b.mem u = none → (stop b u).1 = b) := by
  refine ⟨?_, ?_, ?_, ?_⟩
  · intro h
    rcases handle_text_disk b u msg with ⟨_, hne⟩ | ⟨heq, _⟩
    · exact absurd h hne
    · exact heq
  · intro h
    rcases handle_text_disk b u msg with ⟨heq, _⟩ | ⟨_, hd⟩
    · exact heq
    · exact absurd hd h
  · intro h
    cases hget : storeGet b.mem u with
    | none => rw [hget] at h; simp at h
    | some s => simp [stop, hget]
  · intro h
    simp [stop, h]

def c4b : BotState := ⟨[("u", defaultSettings)], [("u", defaultSettings)]⟩

/-- Counterexample to C4 as stated: the enable-choice mutation ("yes" sets
`notifications = True`, line 57) returns without any `save_settings()`
call, so afterwards the persisted store differs from the in-memory store. -/
theorem enable_choice_not_persisted :
    (handle_text c4b "u" "yes").1.mem ≠ (handle_text c4b "u" "yes").1.disk
    ∧ (handle_text c4b "u" "yes").1.mem = [("u", ⟨true, 1, 300⟩)] := by
  decide

/-- Witness for C4's amended theorem at a concrete input. -/
theorem persistence_only_on_completion_and_stop_witness :
    (handle_text c4b "u" "yes").2 ≠ Reply.setDone
    ∧ (handle_text c4b "u" "yes").1.disk = c4b.disk :=
  ⟨by decide, (persistence_only_on_completion_and_stop c4b "u" "yes").2.1 (by decide)⟩

def c6b0 : BotState := (configure ⟨[], []⟩ "u").1

def c6b1 : BotState := (handle_text c6b0 "u" "yes").1

def c6b2 : BotState := (handle_text c6b1 "u" "4").1

def c6b3 : BotState := (handle_text c6b2 "u" "250").1

/-- C6: from a fresh `/configure` record with defaults
`(False, 1, 300)`, the input sequence "yes", "4", "250" deterministically
yields `notifications = True`, `interval = 4`, `threshold = 250` (and the
completed configuration is persisted). -/
theorem dialog_yes_4_250_reaches_active :
    storeGet c6b3.mem "u" = some ⟨true, 4, 250⟩ ∧ c6b3.disk = c6b3.mem := by
  have h2 : c6b2 = ⟨[("u", ⟨true, 4, 300⟩)], []⟩ := by decide
  have hpf : pyFloat "250" = some 250 := by
    have hp : pyFloatParts "250" = some ⟨false, 250, 0, 0, 0⟩ := by decide
    simp [pyFloat, hp, ratOfParts, pow10]
  have hsl : pyStripLower "250" = "250" := by decide
  have h3 : c6b3 = ⟨[("u", ⟨true, 4, 250⟩)], [("u", ⟨true, 4, 250⟩)]⟩ := by
    show (handle_text c6b2 "u" "250").1 = _
    rw [h2]
    simp [handle_text, hsl, hpf, storeGet, storeSet]
  rw [h3]
  constructor
  · simp [storeGet]
  · rfl

def c7b : BotState := ⟨[("u", enabledSettings)], [("u", enabledSettings)]⟩

/-- Counterexample to C7 as stated: in the interval stage the input "n" does
not parse as any integer, yet the configuration does NOT stay unchanged —
the token branch of lines 59-61 fires first and flips
`notifications` off. -/
theorem negative_token_mutates_in_awaiting_interval :
    pyInt (pyStripLower "n") = none
    ∧ stageOf enabledSettings = Stage.awaitingInterval
    ∧ (handle_text c7b "u" "n").1.mem ≠ c7b.mem := by
  decide

/-- C7 amended: in the interval stage (sentinels `notifications = True`,
`interval == 1`, threshold still at its default 300), a non-token input
that Python `int()` accepts (any sign) is stored as the interval with no
persistence write and the threshold prompt is issued — the dialog only
actually leaves the interval stage when the value is not the sentinel 1;
an input `int()` rejects leaves the whole state unchanged and triggers the
error re-prompt; the y/yes/n/no tokens are excluded because the token
branches fire first. -/
theorem awaiting_interval_behavior_amended (b : BotState) (u msg : String) (s : Settings)
    (hs : storeGet b.mem u = some s)
    (hn : s.notifications = true) (hi : s.interval = 1) (hth : s.threshold = 300)
    (hy : ¬(pyStripLower msg = "y" ∨ pyStripLower msg = "yes"))
    (hno : ¬(pyStripLower msg = "n" ∨ pyStripLower msg = "no")) :
    (∀ k : Int, pyInt (pyStripLower msg) = some k →
      (handle_text b u msg).1.mem = storeSet b.mem u { s with interval := k }
      ∧ (handle_text b u msg).1.disk = b.disk
      ∧ (handle_text b u msg).2 = Reply.askThreshold
      ∧ stageOf { s with interval := k }
          = (if k = 1 then Stage.awaitingInterval else Stage.awaitingThreshold))
    ∧ (pyInt (pyStripLower msg) = none →
      (handle_text b u msg).1 = b ∧ (handle_text b u msg).2 = Reply.intervalError) := by
  constructor
  · intro k hk
    refine ⟨?_, ?_, ?_, ?_⟩
    · simp [handle_text, hs, hy, hno, hn, hi, hk]
    · simp [handle_text, hs, hy, hno, hn, hi, hk]
    · simp [handle_text, hs, hy, hno, hn, hi, hk]
    · by_cases hk1 : k = 1
      · simp [stageOf, hn, hk1]
      · simp [stageOf, hn, hk1, hth]
  · intro hk
    constructor
    · simp [handle_text, hs, hy, hno, hn, hi, hk]
    · simp [handle_text, hs, hy, hno, hn, hi, hk]

/-- Witness for C7's amended theorem at a concrete input. -/
theorem awaiting_interval_behavior_amended_witness :
    (storeGet c7b.mem "u" = some enabledSettings
      ∧ pyInt (pyStripLower "4") = some 4)
    ∧ ((handle_text c7b "u" "4").1.mem
          = storeSet c7b.mem "u" { enabledSettings with interval := 4 }
      ∧ (handle_text c7b "u" "4").1.disk = c7b.disk
      ∧ (handle_text c7b "u" "4").2 = Reply.askThreshold
      ∧ stageOf { enabledSettings with interval := (4 : Int) }
          = (if (4 : Int) = 1 then Stage.awaitingInterval else Stage.awaitingThreshold)) :=
  ⟨⟨by decide, by decide⟩,
    (awaiting_interval_behavior_amended c7b "u" "4" enabledSettings (by decide) (by decide)
        (by decide) (by decide) (by decide) (by decide)).1 4 (by decide)⟩

/-- C10: an already-registered subscriber's message whose
stripped-and-lowered form is "y"/"yes" (resp. "n"/"no") always sets
`notifications` to true (resp. false), leaving `interval` and `threshold`
untouched and the persisted store unchanged, whatever the current dialog
stage — the token branches precede the interval/threshold branches, so the
tokens are never parsed as numbers. -/
theorem yes_no_tokens_any_stage (b : BotState) (u msg : String) (s : Settings)
    (hs : storeGet b.mem u = some s) :
    ((pyStripLower msg = "y" ∨ pyStripLower msg = "yes") →
      (handle_text b u msg).1.mem = storeSet b.mem u { s with notifications := true }
      ∧ (handle_text b u msg).1.disk = b.disk
      ∧ (handle_text b u msg).2 = Reply.askInterval)
    ∧ ((pyStripLower msg = "n" ∨ pyStripLower msg = "no") →
      (handle_text b u msg).1.mem = storeSet b.mem u { s with notifications := false }
      ∧ (handle_text b u msg).1.disk = b.disk
      ∧ (handle_text b u msg).2 = Reply.disabledMsg) := by
  constructor
  · intro h
    refine ⟨?_, ?_, ?_⟩ <;> simp [handle_text, hs, h]
  · intro h
    have hy : ¬(pyStripLower msg = "y" ∨ pyStripLower msg = "yes") := by
      rcases h with h | h <;> simp [h]
    refine ⟨?_, ?_, ?_⟩ <;> simp [handle_text, hs, hy, h]

/-- Witness for C10 at a concrete input (with real stripping and
lowercasing). -/
theorem yes_no_tokens_any_stage_witness :
    (storeGet c7b.mem "u" = some enabledSettings
      ∧ (pyStripLower " YES " = "y" ∨ pyStripLower " YES " = "yes"))
    ∧ ((handle_text c7b "u" " YES ").1.mem
          = storeSet c7b.mem "u" { enabledSettings with notifications := true }
      ∧ (handle_text c7b "u" " YES ").1.disk = c7b.disk
      ∧ (handle_text c7b "u" " YES ").2 = Reply.askInterval) :=
  ⟨⟨by decide, by decide⟩,
    (yes_no_tokens_any_stage c7b "u" " YES " enabledSettings (by decide)).1 (by decide)⟩
